import Mathlib

/-!
Shallow embedding of `src/robot_test_report.py` (a Robot Framework
result-to-HTML report generator) and proofs about its traversal,
filtering and counting behaviour.

Result-tree items (`robot.result` keywords / control structures) are
modelled as `Step`: Python's `hasattr`/`getattr` probes are modelled as
`Option` fields where the code distinguishes presence from absence
(`type`, `status`, `kwname`), and as plain lists where absence is
behaviourally identical to emptiness (`tags`, `body`).
-/

set_option autoImplicit false

namespace RobotReport

/-- A result-tree body item (keyword, setup, teardown, control structure).
Fields, in order: `type` attribute, `status`, `kwname`, `tags`, `body`. -/
inductive Step : Type where
  | mk : Option String → Option String → Option String → List String → List Step → Step

def Step.type : Step → Option String
  | .mk t _ _ _ _ => t

def Step.status : Step → Option String
  | .mk _ s _ _ _ => s

def Step.kwname : Step → Option String
  | .mk _ _ k _ _ => k

def Step.tags : Step → List String
  | .mk _ _ _ tg _ => tg

def Step.body : Step → List Step
  | .mk _ _ _ _ b => b

/-- A test case: `name`, optional `setup`, optional `teardown`, `body`. -/
structure TestCase : Type where
  name : String
  setup : Option Step
  teardown : Option Step
  body : List Step

/-- A suite: `name`, optional `setup`/`teardown`, `tests`, child `suites`. -/
inductive Suite : Type where
  | mk : String → Option Step → Option Step → List TestCase → List Suite → Suite

def Suite.name : Suite → String
  | .mk n _ _ _ _ => n

def Suite.setup : Suite → Option Step
  | .mk _ s _ _ _ => s

def Suite.teardown : Suite → Option Step
  | .mk _ _ td _ _ => td

def Suite.tests : Suite → List TestCase
  | .mk _ _ _ ts _ => ts

def Suite.suites : Suite → List Suite
  | .mk _ _ _ _ ss => ss

/-- The keyword-like types checked by `extract_keywords` and
`count_keyword_occurrences.count_in_item` (`['KEYWORD', 'SETUP', 'TEARDOWN']`). -/
def keywordTypes : List String := ["KEYWORD", "SETUP", "TEARDOWN"]

/-- The control-structure types skipped by `count_in_item`
(`['FOR', 'IF/ELSE ROOT', 'RETURN', 'FOR ITERATION', 'IF BRANCH']`). -/
def controlTypes : List String :=
  ["FOR", "IF/ELSE ROOT", "RETURN", "FOR ITERATION", "IF BRANCH"]

/-- The `keyword_class` CSS string chosen in `extract_keywords`. -/
def keywordClass (is_setup is_teardown : Bool) : String :=
  if is_setup then "setup-keyword"
  else if is_teardown then "teardown-keyword"
  else ""

/-- The `<li ...>` opening line appended for a keyword with a body
(`f"<li class='{...}' data-tags='{...}'>{keyword_name}"`). -/
def liOpen (cls tagsStr name : String) : String :=
  "<li class='" ++ cls ++ "' data-tags='" ++ tagsStr ++ "'>" ++ name

/-- The single-line `<li ...>...</li>` appended for a keyword without a body. -/
def liSimple (cls tagsStr name : String) : String :=
  liOpen cls tagsStr name ++ "</li>"

/-- Characters of a string up to (excluding) the first occurrence of two
consecutive spaces. -/
def firstTokenAux : List Char → List Char
  | [] => []
  | ' ' :: ' ' :: _ => []
  | c :: rest => c :: firstTokenAux rest

/-- The display name computed at line 37 / 221:
`keyword_name.split('  ')[0]`, i.e. the part of the raw name before the
first occurrence of two consecutive spaces (Robot Framework's argument
separator); the whole name when no double space occurs. -/
def firstToken (s : String) : String :=
  ⟨firstTokenAux s.data⟩

/-- `keyword_name.startswith('$')`: the first character is `$`. -/
def startsWithDollar (s : String) : Bool :=
  match s.data with
  | [] => false
  | c :: _ => c = '$'

/-- `tag.lower()`, character by character. -/
def lowerString (s : String) : String :=
  ⟨s.data.map Char.toLower⟩

/-- Whether a tag list passes the `user_defined` check
(`tag.lower() == 'user_defined'` for some tag). -/
def hasUserDefinedTag (tags : List String) : Bool :=
  tags.any (fun tag => lowerString tag = "user_defined")

mutual

/-- `extract_keywords(item, html_lines, indent, is_setup, is_teardown)`:
returns the list of HTML lines the Python function appends.  Mirrors the
source control flow: the `NOT RUN` status check first; for
KEYWORD/SETUP/TEARDOWN types, early `return` on empty or `$`-prefixed
name and on a missing `user_defined` tag; emission of the `<li>` block
(foldable when `body` is non-empty); and finally the unconditional
"Process nested items" loop over `item.body` (lines 63-66), which runs
whenever no early `return` fired. -/
def extract_keywords (item : Step) (is_setup is_teardown : Bool) : List String :=
  match item with
  | .mk ty st kw tg bd =>
    if st = some "NOT RUN" then []
    else
      match ty with
      | some t =>
        if t ∈ keywordTypes then
          let keyword_name := kw.getD ""
          if keyword_name = "" ∨ startsWithDollar keyword_name then []
          else if ¬ hasUserDefinedTag tg then []
          else
            let name := firstToken keyword_name
            let cls := keywordClass is_setup is_teardown
            let tagsStr := String.intercalate " " tg
            (if bd.isEmpty then
              [liSimple cls tagsStr name]
            else
              [liOpen cls tagsStr name, "<ul>"]
                ++ extract_list bd is_setup is_teardown
                ++ ["</ul>", "</li>"])
              ++ extract_list bd is_setup is_teardown
        else
          extract_list bd is_setup is_teardown
      | none => extract_list bd is_setup is_teardown

/-- The `for nested_item in item.body: extract_keywords(...)` loop. -/
def extract_list (items : List Step) (is_setup is_teardown : Bool) : List String :=
  match items with
  | [] => []
  | i :: rest =>
      extract_keywords i is_setup is_teardown ++ extract_list rest is_setup is_teardown

end

mutual

/-- `count_keywords_in_item(item)`: `for nested_item in item.body:
count += 1 + count_keywords_in_item(nested_item)`. -/
def count_keywords_in_item (item : Step) : Nat :=
  match item with
  | .mk _ _ _ _ bd => count_keywords_in_list bd

/-- The loop body of `count_keywords_in_item` over a body list. -/
def count_keywords_in_list (items : List Step) : Nat :=
  match items with
  | [] => 0
  | i :: rest => 1 + count_keywords_in_item i + count_keywords_in_list rest

end

/-- Contribution of an optional setup/teardown slot in
`count_test_cases_and_keywords`: `if x: total += 1 + count_keywords_in_item(x)`. -/
def setupSlotCount : Option Step → Nat
  | none => 0
  | some st => 1 + count_keywords_in_item st

/-- Per-test keyword total in `count_test_cases_and_keywords` (lines 173-187):
test setup slot, `1 + count` for each body item, teardown slot. -/
def testKeywordTotal (t : TestCase) : Nat :=
  setupSlotCount t.setup + count_keywords_in_list t.body + setupSlotCount t.teardown

/-- The `for test in suite.tests` accumulation of `testKeywordTotal`. -/
def testsKeywordTotal : List TestCase → Nat
  | [] => 0
  | t :: rest => testKeywordTotal t + testsKeywordTotal rest

mutual

/-- `count_test_cases_and_keywords(suite)`: returns
`(total_test_cases, total_keywords)`. -/
def count_test_cases_and_keywords (s : Suite) : Nat × Nat :=
  match s with
  | .mk _ su td tests suites =>
    let own := setupSlotCount su + setupSlotCount td + testsKeywordTotal tests
    let sub := ctck_subsuites suites
    (tests.length + sub.fst, own + sub.snd)

/-- The `for subsuite in suite.suites` accumulation loop. -/
def ctck_subsuites (ss : List Suite) : Nat × Nat :=
  match ss with
  | [] => (0, 0)
  | s :: rest =>
    let a := count_test_cases_and_keywords s
    let b := ctck_subsuites rest
    (a.fst + b.fst, a.snd + b.snd)

end

/-- A Python `dict` of keyword counts, as an insertion-ordered association
list (first occurrence of a key is its binding; `dset` updates in place or
appends, exactly as `d[k] = v` does). -/
abbrev KwDict : Type := List (String × Nat)

/-- `d.get(k, 0)`. -/
def dget : KwDict → String → Nat
  | [], _ => 0
  | p :: rest, k => if p.fst = k then p.snd else dget rest k

/-- `d[k] = v`. -/
def dset : KwDict → String → Nat → KwDict
  | [], k, v => [(k, v)]
  | p :: rest, k, v => if p.fst = k then (k, v) :: rest else p :: dset rest k v

mutual

/-- `count_keyword_occurrences.count_in_item(item)`, with the mutated
`keyword_counts` dict threaded explicitly.  Control-structure types recurse
into the body and return; KEYWORD/SETUP/TEARDOWN types with a `kwname`
increment the count keyed by `kwname.split('  ')[0]` when the name does not
start with `$` and a `user_defined` tag is present; then the body is
processed.  No status check is performed here. -/
def count_in_item (d : KwDict) (item : Step) : KwDict :=
  match item with
  | .mk ty _ kw tg bd =>
    match ty with
    | some t =>
      if t ∈ controlTypes then count_in_list d bd
      else
        let d1 :=
          if t ∈ keywordTypes then
            match kw with
            | some kn =>
              let keyword_name := firstToken kn
              if startsWithDollar keyword_name then d
              else if hasUserDefinedTag tg then
                dset d keyword_name (dget d keyword_name + 1)
              else d
            | none => d
          else d
        count_in_list d1 bd
    | none => count_in_list d bd

/-- `for nested_item in item.body: count_in_item(nested_item)`. -/
def count_in_list (d : KwDict) (items : List Step) : KwDict :=
  match items with
  | [] => d
  | i :: rest => count_in_list (count_in_item d i) rest

end

/-- `if x: count_in_item(x)` for an optional setup/teardown slot. -/
def count_opt_item (d : KwDict) : Option Step → KwDict
  | none => d
  | some st => count_in_item d st

/-- The per-test counting in `count_keyword_occurrences` (lines 249-255):
setup, body, teardown, in that order. -/
def count_in_test (d : KwDict) (t : TestCase) : KwDict :=
  count_opt_item (count_in_list (count_opt_item d t.setup) t.body) t.teardown

/-- The `for test in suite.tests` counting loop. -/
def count_in_tests (d : KwDict) : List TestCase → KwDict
  | [] => d
  | t :: rest => count_in_tests (count_in_test d t) rest

/-- The merge loop (lines 258-261): `for keyword, count in
subsuite_counts.items(): keyword_counts[keyword] =
keyword_counts.get(keyword, 0) + count`. -/
def merge_counts (d : KwDict) : KwDict → KwDict
  | [] => d
  | (k, c) :: rest => merge_counts (dset d k (dget d k + c)) rest

mutual

/-- `count_keyword_occurrences(suite)`: suite setup, suite teardown, tests,
then merge each subsuite's recursively computed dict. -/
def count_keyword_occurrences (s : Suite) : KwDict :=
  match s with
  | .mk _ su td tests suites =>
    let d1 := count_opt_item [] su
    let d2 := count_opt_item d1 td
    let d3 := count_in_tests d2 tests
    cko_subsuites d3 suites

/-- The `for subsuite in suite.suites` merge loop. -/
def cko_subsuites (d : KwDict) (ss : List Suite) : KwDict :=
  match ss with
  | [] => d
  | s :: rest => cko_subsuites (merge_counts d (count_keyword_occurrences s)) rest

end

/-- The counts gathered from a suite's own setup, teardown and tests
(the state of `keyword_counts` just before the subsuite merge loop). -/
def own_counts (s : Suite) : KwDict :=
  count_in_tests (count_opt_item (count_opt_item [] s.setup) s.teardown) s.tests

/-- The suite header block appended unconditionally at the top of
`process_suite` (lines 73-81), with `{suite.name}` interpolated. -/
def suite_header_html (name : String) : String :=
  "\n        <div class=\"test-suite\">\n            <div class=\"suite-header\" aria-expanded=\"false\">\n                <div>\n                    <div class=\"suite-name\">Suite: "
    ++ name
    ++ "</div>\n                </div>\n                <span class=\"chevron\">▸</span>\n            </div>\n            <div class=\"suite-content\">"

/-- The opening block for the "Suite Setup" pseudo test case (lines 85-88). -/
def suite_setup_open_html : String :=
  "\n                <div class=\"test-case\">\n                    <div class=\"test-name\">Suite Setup</div>\n                    <div class=\"keywords\">"

/-- The opening block for the "Suite Teardown" pseudo test case (lines 144-147). -/
def suite_teardown_open_html : String :=
  "\n                <div class=\"test-case\">\n                    <div class=\"test-name\">Suite Teardown</div>\n                    <div class=\"keywords\">"

/-- The closing block at suite-content level (lines 90-92, 138-140, 149-151). -/
def suite_level_close_html : String :=
  "\n                    </div>\n                </div>"

/-- The opening block for a test case (lines 106-109). -/
def test_case_open_html (name : String) : String :=
  "\n                <div class=\"test-case\">\n                    <div class=\"test-name\">Test Case: "
    ++ name
    ++ "</div>\n                    <div class=\"keywords\">"

/-- The opening block for a "Test Setup" sub-block (lines 113-116). -/
def test_setup_open_html : String :=
  "\n                        <div class=\"test-case\">\n                            <div class=\"test-name\">Test Setup</div>\n                            <div class=\"keywords\">"

/-- The opening block for a "Test Teardown" sub-block (lines 129-132). -/
def test_teardown_open_html : String :=
  "\n                        <div class=\"test-case\">\n                            <div class=\"test-name\">Test Teardown</div>\n                            <div class=\"keywords\">"

/-- The closing block for a test setup/teardown sub-block (lines 118-120, 134-136). -/
def test_level_close_html : String :=
  "\n                            </div>\n                        </div>"

/-- The closing block of the whole suite (lines 153-155). -/
def suite_close_html : String :=
  "\n            </div>\n        </div>"

/-- Test body rendering (lines 123-125): each body item is passed to
`extract_keywords` unless its `type` is SETUP or TEARDOWN. -/
def render_test_body : List Step → List String
  | [] => []
  | k :: rest =>
    (match k.type with
     | some t => if t = "SETUP" ∨ t = "TEARDOWN" then [] else extract_keywords k false false
     | none => extract_keywords k false false)
      ++ render_test_body rest

/-- The `for test in suite.tests` loop of `process_suite` (lines 99-140):
dedup on `f"{suite.name}.{test.name}"` against the shared `processed_tests`
set, then emit the test-case block.  Returns the appended lines and the
updated set. -/
def process_tests (suiteName : String) : List TestCase → List String →
    List String × List String
  | [], p => ([], p)
  | t :: rest, p =>
    let tid := suiteName ++ "." ++ t.name
    if tid ∈ p then process_tests suiteName rest p
    else
      let h :=
        [test_case_open_html t.name]
          ++ (match t.setup with
              | some st =>
                [test_setup_open_html] ++ extract_keywords st true false
                  ++ [test_level_close_html]
              | none => [])
          ++ render_test_body t.body
          ++ (match t.teardown with
              | some td =>
                [test_teardown_open_html] ++ extract_keywords td false true
                  ++ [test_level_close_html]
              | none => [])
          ++ [suite_level_close_html]
      let r := process_tests suiteName rest (tid :: p)
      (h ++ r.fst, r.snd)

mutual

/-- `process_suite(suite, html_lines, processed_tests)`: returns the HTML
lines appended and the updated `processed_tests` set.  Order as in the
source: header, suite setup, nested suites, test cases, suite teardown,
closing block. -/
def process_suite (s : Suite) (processed : List String) :
    List String × List String :=
  match s with
  | .mk name su td tests suites =>
    let h1 :=
      match su with
      | some st =>
        [suite_setup_open_html] ++ extract_keywords st true false
          ++ [suite_level_close_html]
      | none => []
    let r2 := process_subsuites suites processed
    let r3 := process_tests name tests r2.snd
    let h4 :=
      match td with
      | some tdd =>
        [suite_teardown_open_html] ++ extract_keywords tdd false true
          ++ [suite_level_close_html]
      | none => []
    (suite_header_html name :: (h1 ++ r2.fst ++ r3.fst ++ h4 ++ [suite_close_html]),
     r3.snd)

/-- The `for subsuite in suite.suites: process_suite(...)` loop. -/
def process_subsuites (ss : List Suite) (processed : List String) :
    List String × List String :=
  match ss with
  | [] => ([], processed)
  | s :: rest =>
    let r1 := process_suite s processed
    let r2 := process_subsuites rest r1.snd
    (r1.fst ++ r2.fst, r2.snd)

end

/-- Outcome of `main`'s argument handling: either the usage message is
printed and the process exits with status 1 (no file written), or the
report is generated from the given input and written to the fixed output
file name (line 1449). -/
inductive MainResult : Type where
  | usage_exit : MainResult
  | run : String → String → MainResult
  deriving DecidableEq

/-- `main`'s command-line handling (lines 732-737) together with the fixed
output path (line 1449): `sys.argv` must have exactly two entries (program
name and input path); otherwise the usage message is printed and the
process exits with status 1.  The output file name is always
`test_suite_overview.html`. -/
def mainModel (argv : List String) : MainResult :=
  if argv.length ≠ 2 then .usage_exit
  else .run (argv.getD 1 "") "test_suite_overview.html"

/-! Specification-side definitions (stated from the spec's words, to be
compared with the functions embedded from the source). -/

mutual

/-- Stated from the spec's words: a tree "containing zero tests anywhere"
(no test directly or transitively). -/
def noTestsAnywhere : Suite → Bool
  | .mk _ _ _ tests suites => tests.isEmpty && noTestsList suites

/-- `noTestsAnywhere` over a list of child suites. -/
def noTestsList : List Suite → Bool
  | [] => true
  | s :: rest => noTestsAnywhere s && noTestsList rest

end

mutual

/-- Stated from the spec's words: a raw-tree node counts as "1 + count of
all nested descendant items", independent of any display filtering. -/
def stepNodeCount : Step → Nat
  | .mk _ _ _ _ bd => 1 + stepNodesTotal bd

/-- Total raw-node count of a list of sibling items. -/
def stepNodesTotal : List Step → Nat
  | [] => 0
  | i :: rest => stepNodeCount i + stepNodesTotal rest

end

/-- Raw-node count of an optional setup/teardown slot. -/
def slotNodes : Option Step → Nat
  | none => 0
  | some st => stepNodeCount st

/-- Raw-node count of a test: its setup slot, every body item, its
teardown slot, each with all nested descendants. -/
def testNodes (t : TestCase) : Nat :=
  slotNodes t.setup + stepNodesTotal t.body + slotNodes t.teardown

/-- `testNodes` summed over a suite's tests. -/
def testsNodes : List TestCase → Nat
  | [] => 0
  | t :: rest => testNodes t + testsNodes rest

mutual

/-- Stated from the spec's words: every node in the raw (unflattened) tree
below the root — each suite-level and test-level setup, teardown and body
item at every level, recursively, counted exactly once. -/
def suiteNodes : Suite → Nat
  | .mk _ su td tests suites =>
    slotNodes su + slotNodes td + testsNodes tests + suitesNodes suites

/-- `suiteNodes` over a list of child suites. -/
def suitesNodes : List Suite → Nat
  | [] => 0
  | s :: rest => suiteNodes s + suitesNodes rest

end

mutual

/-- Stated from the spec's words: `totalTests` is the sum of test counts
across all suites including subsuites. -/
def specTotalTests : Suite → Nat
  | .mk _ _ _ tests suites => tests.length + specTotalTestsList suites

/-- `specTotalTests` over a list of child suites. -/
def specTotalTestsList : List Suite → Nat
  | [] => 0
  | s :: rest => specTotalTests s + specTotalTestsList rest

end

/-- The key sequence of a keyword-count dict. -/
def dkeys (d : KwDict) : List String := d.map Prod.fst

/-! Concrete instances used by counterexamples and failing-input
evaluations. -/

/-- A plain leaf keyword call without the `user_defined` tag. -/
def c1_leaf : Step := .mk (some "KEYWORD") none (some "Open Browser") [] []

/-- An executed FOR container whose only child is `c1_leaf`. -/
def c1_container : Step := .mk (some "FOR") none none [] [c1_leaf]

/-- A `user_defined` keyword whose status is `NOT RUN`. -/
def c2_step : Step :=
  .mk (some "KEYWORD") (some "NOT RUN") (some "Skipped Keyword") ["user_defined"] []

/-- A suite whose single test's body is just the `NOT RUN` keyword. -/
def c2_suite : Suite :=
  .mk "S" none none [⟨"T", none, none, [c2_step]⟩] []

/-- A suite owning no test, directly or transitively. -/
def c3_suite : Suite := .mk "Empty" none none [] []

/-- A renderable `user_defined` child of a placeholder-named step. -/
def c5_child : Step := .mk (some "KEYWORD") none (some "Promoted") ["user_defined"] []

/-- A keyword whose name is a variable placeholder, with a renderable child. -/
def c5_step : Step :=
  .mk (some "KEYWORD") none (some "$placeholder") ["user_defined"] [c5_child]

/-- A `user_defined` keyword whose raw name contains a single space. -/
def c6_step : Step := .mk (some "KEYWORD") none (some "Foo Bar") ["user_defined"] []

/-- A leaf invocation of keyword `K` with the `user_defined` tag. -/
def c7_leaf : Step := .mk (some "KEYWORD") none (some "K") ["user_defined"] []

/-- A parent suite invoking `K` once, with two child suites invoking `K`
once each. -/
def c7_parent : Suite :=
  .mk "P" none none [⟨"T0", none, none, [c7_leaf]⟩]
    [.mk "C1" none none [⟨"T1", none, none, [c7_leaf]⟩] [],
     .mk "C2" none none [⟨"T2", none, none, [c7_leaf]⟩] []]

/-! Helper lemmas. -/

mutual

theorem ctck_fst_eq_zero (s : Suite) (h : noTestsAnywhere s = true) :
    (count_test_cases_and_keywords s).fst = 0 :=
  match s with
  | .mk n su td tests suites => by
    simp only [noTestsAnywhere, Bool.and_eq_true] at h
    have h1 : tests = [] := by simpa using h.1
    subst h1
    have ih := ctck_list_fst_eq_zero suites h.2
    simp [count_test_cases_and_keywords, ih]

theorem ctck_list_fst_eq_zero (ss : List Suite) (h : noTestsList ss = true) :
    (ctck_subsuites ss).fst = 0 :=
  match ss with
  | [] => rfl
  | s :: rest => by
    simp only [noTestsList, Bool.and_eq_true] at h
    have i1 := ctck_fst_eq_zero s h.1
    have i2 := ctck_list_fst_eq_zero rest h.2
    simp [ctck_subsuites, i1, i2]

end

mutual

theorem stepNodeCount_eq (i : Step) :
    stepNodeCount i = 1 + count_keywords_in_item i :=
  match i with
  | .mk ty st kw tg bd => by
    rw [stepNodeCount, count_keywords_in_item, stepNodesTotal_eq bd]

theorem stepNodesTotal_eq (l : List Step) :
    stepNodesTotal l = count_keywords_in_list l :=
  match l with
  | [] => rfl
  | i :: rest => by
    rw [stepNodesTotal, count_keywords_in_list, stepNodeCount_eq i,
      stepNodesTotal_eq rest]

end

theorem slotNodes_eq (o : Option Step) : slotNodes o = setupSlotCount o := by
  cases o <;> simp [slotNodes, setupSlotCount, stepNodeCount_eq]

theorem testNodes_eq (t : TestCase) : testNodes t = testKeywordTotal t := by
  simp [testNodes, testKeywordTotal, slotNodes_eq, stepNodesTotal_eq]

theorem testsNodes_eq (ts : List TestCase) :
    testsNodes ts = testsKeywordTotal ts := by
  induction ts with
  | nil => rfl
  | cons t rest ih => simp [testsNodes, testsKeywordTotal, testNodes_eq, ih]

mutual

theorem ctck_eq_spec (s : Suite) :
    count_test_cases_and_keywords s = (specTotalTests s, suiteNodes s) :=
  match s with
  | .mk n su td tests suites => by
    have ih := ctck_list_eq_spec suites
    simp only [count_test_cases_and_keywords, specTotalTests, suiteNodes, ih,
      slotNodes_eq, testsNodes_eq]

theorem ctck_list_eq_spec (ss : List Suite) :
    ctck_subsuites ss = (specTotalTestsList ss, suitesNodes ss) :=
  match ss with
  | [] => rfl
  | s :: rest => by
    have i1 := ctck_eq_spec s
    have i2 := ctck_list_eq_spec rest
    simp [ctck_subsuites, specTotalTestsList, suitesNodes, i1, i2]

end

theorem dget_eq_zero_of_not_mem (d : KwDict) (k : String) (h : k ∉ dkeys d) :
    dget d k = 0 := by
  induction d with
  | nil => rfl
  | cons p rest ih =>
    simp only [dkeys, List.map_cons, List.mem_cons, not_or] at h
    rw [dget, if_neg (fun e : p.fst = k => h.1 e.symm)]
    exact ih (by simpa [dkeys] using h.2)

theorem dget_dset_self (d : KwDict) (k : String) (v : Nat) :
    dget (dset d k v) k = v := by
  induction d with
  | nil => rw [dset, dget, if_pos rfl]
  | cons p rest ih =>
    rw [dset]
    by_cases hp : p.fst = k
    · rw [if_pos hp, dget, if_pos rfl]
    · rw [if_neg hp, dget, if_neg hp]
      exact ih

theorem dget_dset_ne (d : KwDict) (k : String) (v : Nat) (q : String)
    (h : q ≠ k) : dget (dset d k v) q = dget d q := by
  induction d with
  | nil => simp [dset, dget, Ne.symm h]
  | cons p rest ih =>
    rw [dset]
    by_cases hp : p.fst = k
    · rw [if_pos hp, dget, dget, hp, if_neg (Ne.symm h), if_neg (Ne.symm h)]
    · rw [if_neg hp, dget, dget]
      by_cases hq : p.fst = q
      · rw [if_pos hq, if_pos hq]
      · rw [if_neg hq, if_neg hq]
        exact ih

theorem dkeys_dset (d : KwDict) (k : String) (v : Nat) :
    dkeys (dset d k v) = if k ∈ dkeys d then dkeys d else dkeys d ++ [k] := by
  induction d with
  | nil => simp [dset, dkeys]
  | cons p rest ih =>
    rw [dset]
    by_cases hp : p.fst = k
    · simp [dkeys, hp]
    · rw [if_neg hp]
      simp only [dkeys, List.map_cons, List.mem_cons] at ih ⊢
      have hkp : ¬ (k = p.fst) := fun e => hp e.symm
      by_cases hm : k ∈ List.map Prod.fst rest
      · simp [hm, hkp, ih]
      · simp [hm, hkp, ih]

theorem nodup_dkeys_dset (d : KwDict) (k : String) (v : Nat)
    (h : (dkeys d).Nodup) : (dkeys (dset d k v)).Nodup := by
  rw [dkeys_dset]
  split
  · exact h
  · next hm => simp [List.nodup_append, h, hm]

theorem dget_merge_counts (e d : KwDict) (k : String) (he : (dkeys e).Nodup) :
    dget (merge_counts d e) k = dget d k + dget e k := by
  induction e generalizing d with
  | nil => rw [merge_counts, dget]; omega
  | cons p rest ih =>
    obtain ⟨k0, c⟩ := p
    simp only [dkeys, List.map_cons, List.nodup_cons] at he
    rw [merge_counts, ih _ he.2]
    by_cases hk : k = k0
    · subst hk
      rw [dget_dset_self,
        dget_eq_zero_of_not_mem rest k (by simpa [dkeys] using he.1),
        dget, if_pos rfl]
      omega
    · rw [dget_dset_ne _ _ _ _ hk, dget, if_neg (Ne.symm hk)]

theorem nodup_merge_counts (e d : KwDict) (hd : (dkeys d).Nodup) :
    (dkeys (merge_counts d e)).Nodup := by
  induction e generalizing d with
  | nil => exact hd
  | cons p rest ih =>
    obtain ⟨k0, c⟩ := p
    rw [merge_counts]
    exact ih _ (nodup_dkeys_dset _ _ _ hd)

mutual

theorem nodup_count_in_item (d : KwDict) (i : Step) (hd : (dkeys d).Nodup) :
    (dkeys (count_in_item d i)).Nodup :=
  match i with
  | .mk ty st kw tg bd => by
    rcases ty with _ | t
    · exact nodup_count_in_list d bd hd
    · simp only [count_in_item.eq_def]
      by_cases hc : t ∈ controlTypes
      · rw [if_pos hc]
        exact nodup_count_in_list d bd hd
      · rw [if_neg hc]
        apply nodup_count_in_list
        by_cases hk : t ∈ keywordTypes
        · rw [if_pos hk]
          rcases kw with _ | kn
          · exact hd
          · dsimp only
            by_cases hds : startsWithDollar (firstToken kn) = true
            · rw [if_pos hds]
              exact hd
            · rw [if_neg hds]
              by_cases htg : hasUserDefinedTag tg = true
              · rw [if_pos htg]
                exact nodup_dkeys_dset _ _ _ hd
              · rw [if_neg htg]
                exact hd
        · rw [if_neg hk]
          exact hd

theorem nodup_count_in_list (d : KwDict) (l : List Step)
    (hd : (dkeys d).Nodup) : (dkeys (count_in_list d l)).Nodup :=
  match l with
  | [] => hd
  | i :: rest => by
    rw [count_in_list]
    exact nodup_count_in_list _ rest (nodup_count_in_item d i hd)

end

theorem nodup_count_opt_item (d : KwDict) (o : Option Step)
    (hd : (dkeys d).Nodup) : (dkeys (count_opt_item d o)).Nodup := by
  cases o with
  | none => exact hd
  | some st => exact nodup_count_in_item d st hd

theorem nodup_count_in_test (d : KwDict) (t : TestCase)
    (hd : (dkeys d).Nodup) : (dkeys (count_in_test d t)).Nodup :=
  nodup_count_opt_item _ _ (nodup_count_in_list _ _ (nodup_count_opt_item _ _ hd))

theorem nodup_count_in_tests (ts : List TestCase) (d : KwDict)
    (hd : (dkeys d).Nodup) : (dkeys (count_in_tests d ts)).Nodup := by
  induction ts generalizing d with
  | nil => exact hd
  | cons t rest ih => exact ih _ (nodup_count_in_test d t hd)

mutual

theorem nodup_cko (s : Suite) : (dkeys (count_keyword_occurrences s)).Nodup :=
  match s with
  | .mk n su td tests suites => by
    rw [count_keyword_occurrences]
    exact nodup_cko_subsuites suites _
      (nodup_count_in_tests tests _
        (nodup_count_opt_item _ _ (nodup_count_opt_item _ _ List.nodup_nil)))

theorem nodup_cko_subsuites (ss : List Suite) (d : KwDict)
    (hd : (dkeys d).Nodup) : (dkeys (cko_subsuites d ss)).Nodup :=
  match ss with
  | [] => hd
  | s :: rest => by
    rw [cko_subsuites]
    exact nodup_cko_subsuites rest _ (nodup_merge_counts _ _ hd)

end

theorem dget_cko_subsuites (ss : List Suite) (d : KwDict) (k : String) :
    dget (cko_subsuites d ss) k
      = dget d k
        + (ss.map (fun c => dget (count_keyword_occurrences c) k)).sum := by
  induction ss generalizing d with
  | nil => simp [cko_subsuites]
  | cons s rest ih =>
    rw [cko_subsuites, ih, dget_merge_counts _ _ _ (nodup_cko s)]
    simp [List.map_cons, List.sum_cons]
    omega

theorem cko_eq_own_then_merge (s : Suite) :
    count_keyword_occurrences s = cko_subsuites (own_counts s) s.suites := by
  cases s
  rfl

/-! Claim theorems. -/

/-- Claim C1, amended: an executed (not `NOT RUN`) control-flow container
step — FOR, IF/ELSE ROOT, RETURN, FOR ITERATION, IF BRANCH — is never
emitted as a visible step node: its rendered output is exactly the
concatenation of its children's renderings spliced at the same level, and
the keyword-occurrence counter likewise processes exactly its children.
Which descendants then appear is decided by the ordinary per-step checks,
not unconditionally, so the original claim's "every eventually-reachable
non-container descendant is emitted" does not hold. -/
theorem c1_containers_transparent (t : String) (st kw : Option String)
    (tg : List String) (bd : List Step) (d : KwDict) (is_setup is_teardown : Bool)
    (ht : t ∈ controlTypes) (hst : st ≠ some "NOT RUN") :
    extract_keywords (.mk (some t) st kw tg bd) is_setup is_teardown
        = extract_list bd is_setup is_teardown
      ∧ count_in_item d (.mk (some t) st kw tg bd) = count_in_list d bd := by
  simp only [controlTypes, List.mem_cons, List.not_mem_nil, or_false] at ht
  rcases ht with rfl | rfl | rfl | rfl | rfl <;>
    exact ⟨by simp +decide [extract_keywords, hst], by simp +decide [count_in_item]⟩

/-- Witness for C1: the transparency equations evaluated at a concrete
executed FOR container. -/
theorem c1_witness :
    extract_keywords (Step.mk (some "FOR") none none [] [c1_leaf]) false false
        = extract_list [c1_leaf] false false
      ∧ count_in_item [] (Step.mk (some "FOR") none none [] [c1_leaf])
        = count_in_list [] [c1_leaf] :=
  c1_containers_transparent "FOR" none none [] [c1_leaf] [] false false
    (by decide) (by decide)

/-- Counterexample to C1 as stated: `c1_container` is an executed FOR
container whose only child `c1_leaf` is an executed non-container KEYWORD
leaf, yet the rendered output is empty — the descendant is not emitted
(it lacks the `user_defined` tag), so flattening is not lossless. -/
theorem c1_counterexample :
    c1_container.type = some "FOR"
      ∧ c1_container.body = [c1_leaf]
      ∧ c1_leaf.type = some "KEYWORD"
      ∧ "KEYWORD" ∉ controlTypes
      ∧ c1_leaf.status ≠ some "NOT RUN"
      ∧ extract_keywords c1_container false false = [] :=
  ⟨rfl, rfl, rfl, by decide, by decide, rfl⟩

/-- Claim C2: the code contradicts it.  `c2_step` has status `NOT RUN`;
the rendering traversal drops it (first check, as claimed), but
`count_keyword_occurrences` performs no status check at all, so the same
step still contributes 1 to the keyword-occurrence counts. -/
theorem c2_not_run_still_counted :
    c2_step.status = some "NOT RUN"
      ∧ extract_keywords c2_step false false = []
      ∧ dget (count_keyword_occurrences c2_suite) "Skipped Keyword" = 1 :=
  ⟨rfl, rfl, by decide⟩

/-- Claim C3, amended: `process_suite` emits a suite record for every
suite unconditionally — the first line it appends is always the suite's
header block, even for suites owning no test directly or transitively —
and for every tree containing zero tests anywhere the reported test total
is 0. -/
theorem c3_suite_records (s : Suite) (p : List String) :
    (process_suite s p).fst.head? = some (suite_header_html s.name)
      ∧ (noTestsAnywhere s = true → (count_test_cases_and_keywords s).fst = 0) :=
  ⟨by cases s; rfl, fun h => ctck_fst_eq_zero s h⟩

/-- Witness for C3 at a concrete test-less suite. -/
theorem c3_witness :
    (process_suite c3_suite []).fst.head?
        = some (suite_header_html c3_suite.name)
      ∧ (count_test_cases_and_keywords c3_suite).fst = 0 :=
  ⟨(c3_suite_records c3_suite []).1, (c3_suite_records c3_suite []).2 (by decide)⟩

/-- Counterexample to C3 as stated: `c3_suite` owns no test at all, yet
its traversal still emits the suite's header and closing records — the
output list is not empty, so test-less suites are not omitted. -/
theorem c3_counterexample :
    c3_suite.tests = [] ∧ c3_suite.suites = []
      ∧ (process_suite c3_suite []).fst
          = [suite_header_html "Empty", suite_close_html] :=
  ⟨rfl, rfl, rfl⟩

/-- Claim C4: `count_test_cases_and_keywords` returns exactly the pair of
the spec-side totals — `totalTests` is the sum of test counts across all
suites including subsuites, and `totalKeywords` counts every node of the
raw unflattened tree below the root (each setup, teardown and body item
at every level plus all their nested descendants) exactly once,
independent of any display filtering, since the spec-side count inspects
only the tree structure and no attribute. -/
theorem c4_raw_tree_totals (s : Suite) :
    count_test_cases_and_keywords s = (specTotalTests s, suiteNodes s) :=
  ctck_eq_spec s

/-- Claim C5, amended: a KEYWORD/SETUP/TEARDOWN step whose resolved name
is empty or starts with the `$` placeholder marker produces no rendered
output at all — the step and all of its descendants are dropped; its
children are not promoted in its place. -/
theorem c5_placeholder_drops_subtree (t : String) (st kw : Option String)
    (tg : List String) (bd : List Step) (is_setup is_teardown : Bool)
    (ht : t ∈ keywordTypes)
    (hname : kw.getD "" = "" ∨ startsWithDollar (kw.getD "") = true) :
    extract_keywords (.mk (some t) st kw tg bd) is_setup is_teardown = [] := by
  simp only [keywordTypes, List.mem_cons, List.not_mem_nil, or_false] at ht
  by_cases hst : st = some "NOT RUN"
  · rcases ht with rfl | rfl | rfl <;> simp [extract_keywords, hst]
  · rcases ht with rfl | rfl | rfl <;> rcases hname with h | h <;>
      simp +decide [extract_keywords, hst, h]

/-- Witness for C5 at a concrete `$`-named step with a renderable child. -/
theorem c5_witness : extract_keywords c5_step false false = [] :=
  c5_placeholder_drops_subtree "KEYWORD" none (some "$placeholder")
    ["user_defined"] [c5_child] false false (by decide) (Or.inr (by decide))

/-- Counterexample to C5 as stated: `c5_step` is `$`-named and its child
`c5_child` renders to a visible line on its own, yet the output for
`c5_step` is empty — the child was silently lost, not promoted. -/
theorem c5_counterexample :
    c5_step.kwname = some "$placeholder"
      ∧ c5_step.body = [c5_child]
      ∧ extract_keywords c5_child false false
          = ["<li class='' data-tags='user_defined'>Promoted</li>"]
      ∧ extract_keywords c5_step false false = [] :=
  ⟨rfl, rfl, rfl, rfl⟩

/-- Claim C6, amended: for every emitted step, the display name in the
rendered output and the key incremented in the keyword-occurrence mapping
are both exactly `firstToken` of the raw name — the part before the first
occurrence of TWO consecutive spaces (Robot Framework's argument
separator), not before the first whitespace. -/
theorem c6_same_first_token (t : String) (st : Option String) (kn : String)
    (tg : List String) (bd : List Step) (d : KwDict) (is_setup is_teardown : Bool)
    (ht : t ∈ keywordTypes) (hst : st ≠ some "NOT RUN") (hne : kn ≠ "")
    (hd1 : startsWithDollar kn = false)
    (hd2 : startsWithDollar (firstToken kn) = false)
    (htag : hasUserDefinedTag tg = true) :
    extract_keywords (.mk (some t) st (some kn) tg bd) is_setup is_teardown
        = (if bd.isEmpty then
            [liSimple (keywordClass is_setup is_teardown)
              (String.intercalate " " tg) (firstToken kn)]
          else
            [liOpen (keywordClass is_setup is_teardown)
              (String.intercalate " " tg) (firstToken kn), "<ul>"]
              ++ extract_list bd is_setup is_teardown ++ ["</ul>", "</li>"])
          ++ extract_list bd is_setup is_teardown
      ∧ count_in_item d (.mk (some t) st (some kn) tg bd)
        = count_in_list (dset d (firstToken kn) (dget d (firstToken kn) + 1)) bd := by
  simp only [keywordTypes, List.mem_cons, List.not_mem_nil, or_false] at ht
  rcases ht with rfl | rfl | rfl <;>
    exact ⟨by simp +decide [extract_keywords, hst, hne, hd1, htag],
           by simp +decide [count_in_item, hd2, htag]⟩

/-- Witness for C6: a raw name with a double space is truncated to its
first token in both the rendered line and the count key. -/
theorem c6_witness :
    extract_keywords
        (Step.mk (some "KEYWORD") none (some "Log  message") ["user_defined"] [])
        false false
        = ["<li class='' data-tags='user_defined'>Log</li>"]
      ∧ count_in_item []
          (Step.mk (some "KEYWORD") none (some "Log  message") ["user_defined"] [])
        = [("Log", 1)] := by
  have h := c6_same_first_token "KEYWORD" none "Log  message" ["user_defined"] [] []
    false false (by decide) (by decide) (by decide) (by decide) (by decide) (by decide)
  exact ⟨h.1.trans (by decide), h.2.trans (by decide)⟩

/-- Counterexample to C6 as stated: the raw name "Foo Bar" contains a
single space, so its first whitespace-delimited token is "Foo", yet the
rendered display name and the occurrence key are the full "Foo Bar" —
the name is split on two consecutive spaces, not on whitespace. -/
theorem c6_counterexample :
    c6_step.kwname = some "Foo Bar"
      ∧ firstToken "Foo Bar" = "Foo Bar"
      ∧ extract_keywords c6_step false false
          = ["<li class='' data-tags='user_defined'>Foo Bar</li>"]
      ∧ dget (count_in_item [] c6_step) "Foo Bar" = 1
      ∧ dget (count_in_item [] c6_step) "Foo" = 0 :=
  ⟨rfl, by decide, by decide, by decide, by decide⟩

/-- Claim C7: the keyword-occurrence mapping of a suite is, pointwise at
every key, the count gathered from its own setup, teardown and tests plus
the sum of the mappings of its child suites; in particular a keyword
invoked once in a parent suite and once in each of two child suites has a
total count of 3. -/
theorem c7_subsuite_pointwise_sum :
    (∀ (s : Suite) (k : String),
        dget (count_keyword_occurrences s) k
          = dget (own_counts s) k
            + (s.suites.map (fun c => dget (count_keyword_occurrences c) k)).sum)
      ∧ dget (count_keyword_occurrences c7_parent) "K" = 3 := by
  constructor
  · intro s k
    rw [cko_eq_own_then_merge s]
    exact dget_cko_subsuites s.suites (own_counts s) k
  · decide

/-- Claim C8, amended: `main` accepts exactly one command-line argument,
the input path — there is no output-path argument, the output file name is
fixed — and on any other argument count (missing input, or an extra
output path) it prints the usage message and exits with status 1 before
anything is written. -/
theorem c8_exactly_one_argument (argv : List String) :
    (argv.length ≠ 2 → mainModel argv = .usage_exit)
      ∧ (argv.length = 2 →
          mainModel argv = .run (argv.getD 1 "") "test_suite_overview.html") := by
  constructor <;> intro h <;> simp [mainModel, h]

/-- Witness for C8: a missing input path exits with the usage error, and a
single input path runs with the fixed output file name. -/
theorem c8_witness :
    mainModel ["robot_test_report.py"] = .usage_exit
      ∧ mainModel ["robot_test_report.py", "output.xml"]
          = .run "output.xml" "test_suite_overview.html" :=
  ⟨(c8_exactly_one_argument ["robot_test_report.py"]).1 (by decide),
   (c8_exactly_one_argument ["robot_test_report.py", "output.xml"]).2 (by decide)⟩

/-- Counterexample to C8 as stated: passing an input path AND an output
path makes the process exit with the usage error — the output path is not
an accepted optional argument. -/
theorem c8_counterexample :
    mainModel ["robot_test_report.py", "output.xml", "report.html"] = .usage_exit
      ∧ mainModel ["robot_test_report.py", "output.xml"]
          = .run "output.xml" "test_suite_overview.html" := by
  constructor <;> decide

/-- Claim C9: a KEYWORD/SETUP/TEARDOWN step with no tag equal
case-insensitively to `user_defined` is emitted nowhere: its rendered
output is empty (so in the rendering traversal its children are dropped
with it), and the occurrence counter leaves the dict unchanged for the
step itself, processing only its children. -/
theorem c9_untagged_omitted (t : String) (st kw : Option String)
    (tg : List String) (bd : List Step) (d : KwDict) (is_setup is_teardown : Bool)
    (ht : t ∈ keywordTypes) (htag : hasUserDefinedTag tg = false) :
    extract_keywords (.mk (some t) st kw tg bd) is_setup is_teardown = []
      ∧ count_in_item d (.mk (some t) st kw tg bd) = count_in_list d bd := by
  simp only [keywordTypes, List.mem_cons, List.not_mem_nil, or_false] at ht
  by_cases hst : st = some "NOT RUN" <;>
    rcases ht with rfl | rfl | rfl <;> rcases kw with _ | kn <;>
      exact ⟨by simp +decide [extract_keywords, hst, htag],
             by simp +decide [count_in_item, htag]⟩

/-- Witness for C9 at a concrete untagged keyword. -/
theorem c9_witness :
    extract_keywords
        (Step.mk (some "KEYWORD") none (some "Builtin Kw") ["robot"] [])
        false false = []
      ∧ count_in_item []
          (Step.mk (some "KEYWORD") none (some "Builtin Kw") ["robot"] [])
        = count_in_list [] [] :=
  c9_untagged_omitted "KEYWORD" none (some "Builtin Kw") ["robot"] [] [] false false
    (by decide) (by decide)

/-- Claim C10: an emitted KEYWORD/SETUP/TEARDOWN step with a non-empty
body renders as its own foldable list item containing its flattened
children, followed by the SAME flattened children spliced again at the
same level — every child of such a step is processed twice. -/
theorem c10_body_processed_twice (t : String) (st : Option String) (kn : String)
    (tg : List String) (bd : List Step) (is_setup is_teardown : Bool)
    (ht : t ∈ keywordTypes) (hst : st ≠ some "NOT RUN") (hne : kn ≠ "")
    (hd1 : startsWithDollar kn = false) (htag : hasUserDefinedTag tg = true)
    (hbd : bd ≠ []) :
    extract_keywords (.mk (some t) st (some kn) tg bd) is_setup is_teardown
        = [liOpen (keywordClass is_setup is_teardown)
            (String.intercalate " " tg) (firstToken kn), "<ul>"]
          ++ extract_list bd is_setup is_teardown
          ++ ["</ul>", "</li>"]
          ++ extract_list bd is_setup is_teardown := by
  simp only [keywordTypes, List.mem_cons, List.not_mem_nil, or_false] at ht
  rcases bd with _ | ⟨b, bs⟩
  · exact absurd rfl hbd
  · rcases ht with rfl | rfl | rfl <;>
      simp +decide [extract_keywords, hst, hne, hd1, htag]

/-- Witness for C10: a keyword with one renderable child emits that child
twice, once nested and once spliced after the item. -/
theorem c10_witness :
    extract_keywords
        (Step.mk (some "KEYWORD") none (some "Parent") ["user_defined"] [c7_leaf])
        false false
        = ["<li class='' data-tags='user_defined'>Parent", "<ul>",
           "<li class='' data-tags='user_defined'>K</li>", "</ul>", "</li>",
           "<li class='' data-tags='user_defined'>K</li>"] := by
  have h := c10_body_processed_twice "KEYWORD" none "Parent" ["user_defined"] [c7_leaf]
    false false (by decide) (by decide) (by decide) (by decide) (by decide)
    (List.cons_ne_nil _ _)
  exact h.trans (by decide)

end RobotReport
